import Mathlib

/-!
Verification of the subpeek presentation shell (src/run.py) against its
natural-language specification.

The repository's visible code is the Python shell `run.py`: it prompts for a
domain, invokes the external enumeration engine (`subpeek_core.exe`, a
separate binary not present in the repository) as a subprocess, parses the
engine's standard output as JSON, and renders the records as a table.

We embed the shell's pure decision logic shallowly:
  * `run_rust_core` models the function of the same name (run.py lines 38-62):
    the result of the subprocess call is abstracted as an `EngineOutcome`
    (its exit code and the result of `json.loads` on its captured stdout,
    `none` meaning the parse raised), plus a flag for whether the binary
    exists on disk (the `os.path.exists` check).
  * `shellDispatch` models the prompt loop head (run.py lines 74-78):
    strip the input, quit on "q"/"exit" (case-insensitive), re-prompt on
    empty, otherwise invoke the engine with the stripped string.
  * The table-rendering loop (run.py lines 110-121) is modelled over
    `RecordJson`, the documented record shape: each Python `dict.get`
    becomes an `Option` field (`none` covering both an absent key and an
    explicit JSON null, which `dict.get` maps to the same Python `None`),
    and Python truthiness of the documented field types is explicit
    (`""` and `0` are falsy).
-/

namespace Subpeek

/-- JSON values as returned by `json.loads` (the decoded Python object). -/
inductive Json where
  | null : Json
  | bool : Bool → Json
  | num : Int → Json
  | str : String → Json
  | arr : List Json → Json
  | obj : List (String × Json) → Json
deriving Repr

/-- The observable outcome of the `subprocess.run` call in `run_rust_core`
(run.py lines 50-57): the subprocess exit code, and the result of
`json.loads` applied to the captured stdout (`none` when the parse raises,
e.g. stdout is not a single valid JSON value). -/
structure EngineOutcome where
  returncode : Int
  stdoutParse : Option Json
deriving Repr

/-- Shallow embedding of `run_rust_core` (run.py lines 38-62).
`binExists` is the `os.path.exists(rust_bin)` test: when it is false the
function returns `[]` before any subprocess work (run.py lines 45-47).
Otherwise, a non-zero exit code yields `[]` (lines 58-59); on exit code 0
the function returns `json.loads(result.stdout)` (line 60); if the parse
raises, the bare `except:` returns `[]` (lines 61-62). -/
def run_rust_core (binExists : Bool) (eng : EngineOutcome) : Json :=
  if binExists = false then .arr []
  else if eng.returncode ≠ 0 then .arr []
  else
    match eng.stdoutParse with
    | some v => v
    | none => .arr []

/-- Python `title[:27]`: the first 27 characters of the string
(run.py line 119). -/
def pySlice (s : String) (n : Nat) : String :=
  ⟨s.data.take n⟩

/-- Python `str.strip()` on the user's input: remove leading and trailing
whitespace (run.py line 74). -/
def pyStrip (s : String) : String :=
  ⟨((s.data.dropWhile Char.isWhitespace).reverse.dropWhile Char.isWhitespace).reverse⟩

/-- Python `str.lower()` (run.py line 75). -/
def pyLower (s : String) : String :=
  ⟨s.data.map Char.toLower⟩

/-- What the prompt loop head does with one line of user input
(run.py lines 74-78): quit, re-prompt, or invoke the engine. -/
inductive ShellAction where
  | exit : ShellAction
  | reprompt : ShellAction
  | invoke : String → ShellAction
deriving Repr, DecidableEq

/-- Shallow embedding of run.py lines 74-78: `domain = input().strip()`;
`sys.exit()` when `domain.lower()` is `"q"` or `"exit"`; `continue` (the
prompt repeats) when `domain` is empty; otherwise the loop body goes on to
call `run_rust_core(domain)` (line 91). -/
def shellDispatch (raw : String) : ShellAction :=
  if pyLower (pyStrip raw) = "q" ∨ pyLower (pyStrip raw) = "exit" then .exit
  else if pyStrip raw = "" then .reprompt
  else .invoke (pyStrip raw)

/-- The argument vector handed to `subprocess.run` (run.py line 51):
the binary path followed by the single positional argument. -/
def engineArgv (rust_bin domain : String) : List String :=
  [rust_bin, domain]

/-- Returns true when `shellDispatch` invokes the engine. -/
def isInvoke : ShellAction → Bool
  | .invoke _ => true
  | _ => false

/-- One result record as the rendering loop sees it, following the documented
record shape: `subdomain : string`, `ip : string|null`,
`status_code : integer|null`, `title : string|null`, `server : string|null`.
Each field is read with `dict.get`, so `none` models both an absent key and
an explicit JSON null (Python `None` either way); `subdomain = none` models a
record lacking the `"subdomain"` key, on which the sort key `x["subdomain"]`
(run.py line 110) raises `KeyError`. -/
structure RecordJson where
  subdomain : Option String
  ip : Option String
  status_code : Option Int
  title : Option String
  server : Option String
deriving Repr, DecidableEq

/-- Python `res.get(field) or "-"` for a documented string-or-null field
(run.py lines 112, 114, 115): `None` and the empty string are falsy and give
the `"-"` placeholder; any other string is kept. -/
def resolveOpt (v : Option String) : String :=
  match v with
  | some s => if s = "" then "-" else s
  | none => "-"

/-- Python `str(res.get("status_code")) if res.get("status_code") else "-"`
(run.py line 113): `None` and `0` are falsy and give `"-"`; any other integer
is rendered in decimal. -/
def resolveStatus (v : Option Int) : String :=
  match v with
  | some n => if n = 0 then "-" else toString n
  | none => "-"

/-- The title truncation (run.py lines 117-119): a resolved title longer than
30 characters is displayed as its first 27 characters followed by `"..."`. -/
def truncateTitle (t : String) : String :=
  if t.length > 30 then pySlice t 27 ++ "..." else t

/-- The five cell strings of one table row (run.py lines 111-121):
`res.get("subdomain", "")`, then the placeholder-resolved ip, status, title
(with truncation applied to the title only) and server. -/
def renderRow (r : RecordJson) : List String :=
  [r.subdomain.getD "", resolveOpt r.ip, resolveStatus r.status_code,
    truncateTitle (resolveOpt r.title), resolveOpt r.server]

/-- Python string comparison `s <= t`: code-point lexicographic order on the
characters, a shorter string preceding any of its extensions. This is the
order `sorted` uses on the string keys (run.py line 110). -/
def lexLeB : List Char → List Char → Bool
  | [], _ => true
  | _ :: _, [] => false
  | a :: as, b :: bs =>
      if a < b then true
      else if b < a then false
      else lexLeB as bs

theorem lexLeB_total (x y : List Char) :
    lexLeB x y = true ∨ lexLeB y x = true := by
  induction x generalizing y with
  | nil => exact Or.inl rfl
  | cons a as ih =>
    cases y with
    | nil => exact Or.inr rfl
    | cons b bs =>
      by_cases hab : a < b
      · exact Or.inl (by simp [lexLeB, hab])
      · by_cases hba : b < a
        · exact Or.inr (by simp [lexLeB, hba])
        · have h1 : lexLeB (a :: as) (b :: bs) = lexLeB as bs := by
            simp [lexLeB, hab, hba]
          have h2 : lexLeB (b :: bs) (a :: as) = lexLeB bs as := by
            simp [lexLeB, hab, hba]
          rw [h1, h2]
          exact ih bs

theorem lexLeB_trans (x y z : List Char) (hxy : lexLeB x y = true)
    (hyz : lexLeB y z = true) : lexLeB x z = true := by
  induction x generalizing y z with
  | nil => rfl
  | cons a as ih =>
    cases y with
    | nil => simp [lexLeB] at hxy
    | cons b bs =>
      cases z with
      | nil => simp [lexLeB] at hyz
      | cons c cs =>
        by_cases hab : a < b
        · by_cases hbc : b < c
          · simp [lexLeB, lt_trans hab hbc]
          · by_cases hcb : c < b
            · simp [lexLeB, hbc, hcb] at hyz
            · have hbc' : b = c := le_antisymm (not_lt.mp hcb) (not_lt.mp hbc)
              subst hbc'
              simp [lexLeB, hab]
        · by_cases hba : b < a
          · simp [lexLeB, hab, hba] at hxy
          · have hab' : a = b := le_antisymm (not_lt.mp hba) (not_lt.mp hab)
            subst hab'
            simp only [lexLeB, if_neg (lt_irrefl a)] at hxy
            by_cases hac : a < c
            · simp [lexLeB, hac]
            · by_cases hca : c < a
              · simp [lexLeB, hac, hca] at hyz
              · have hac' : a = c := le_antisymm (not_lt.mp hca) (not_lt.mp hac)
                subst hac'
                simp only [lexLeB, if_neg (lt_irrefl a)] at hyz ⊢
                exact ih bs cs hxy hyz

/-- Comparison used by `sorted(results, key=lambda x: x["subdomain"])`
(run.py line 110), on records whose `"subdomain"` key is present. -/
def subLe (a b : RecordJson) : Prop :=
  lexLeB (a.subdomain.getD "").data (b.subdomain.getD "").data = true

instance : DecidableRel subLe := fun a b =>
  inferInstanceAs
    (Decidable (lexLeB (a.subdomain.getD "").data
      (b.subdomain.getD "").data = true))

instance : IsTotal RecordJson subLe :=
  ⟨fun a b =>
    lexLeB_total (a.subdomain.getD "").data (b.subdomain.getD "").data⟩

instance : IsTrans RecordJson subLe :=
  ⟨fun a b c hab hbc =>
    lexLeB_trans (a.subdomain.getD "").data (b.subdomain.getD "").data
      (c.subdomain.getD "").data hab hbc⟩

/-- `sorted(results, key=lambda x: x["subdomain"])` (run.py line 110).
Python `sorted` evaluates the key on every element; a record without the
`"subdomain"` key makes the key function raise `KeyError` (modelled as
`none`); otherwise the list is sorted ascending by the subdomain string
(a stable sort, like CPython's). -/
def sortKeyed (rs : List RecordJson) : Option (List RecordJson) :=
  if rs.all (fun r => r.subdomain.isSome) then
    some (List.insertionSort subLe rs)
  else none

/-- The full table body (run.py lines 110-121): the sorted records, each
rendered to its five cells; `none` when the sort raised. -/
def renderTable (rs : List RecordJson) : Option (List (List String)) :=
  (sortKeyed rs).map (fun sorted => sorted.map renderRow)

/-- What `json.dump(results, f, indent=4)` (run.py line 156) serializes: the
list exactly as returned by `run_rust_core` (run.py line 91) — not the
sorted copy and not the truncated display strings. -/
def savedResults (rs : List RecordJson) : List RecordJson :=
  rs

/-- Modelled from the spec: the character set of a syntactically valid DNS
name, used by the engine's fast input validation (the engine binary
`subpeek_core` is not part of the repository). Letters, digits, hyphen and
dot are valid; anything else is an invalid character. -/
def validDomainChar (c : Char) : Bool :=
  c.isAlphanum || c = '-' || c = '.'

/-- Modelled from the spec: one observable run of the engine binary — its
exit code, what it wrote to standard output, and how many network calls
(DNS lookups plus HTTP probes) it attempted. -/
structure EngineRun where
  exitCode : Int
  stdout : String
  networkCalls : Nat
deriving Repr, DecidableEq

/-- Modelled from the spec: the engine binary (`subpeek_core`, absent from
the repository) rejects a malformed domain argument before any network work:
invoking with empty input or a string containing invalid characters
returns a non-zero exit and empty/no output, without attempting any network
call; InvalidDomain "fails fast, no network activity" and is "fatal,
non-zero exit, empty output". `scan` abstracts the rest of the pipeline,
reached only on valid input. -/
def engineOnInput (domain : String) (scan : String → EngineRun) : EngineRun :=
  if domain = "" ∨ ¬ domain.data.all validDomainChar then
    { exitCode := 1, stdout := "", networkCalls := 0 }
  else scan domain

/-- A sample pipeline continuation: a scan that exits 0, writes an empty
array, and made five network calls. -/
def demoScan : String → EngineRun :=
  fun _ => EngineRun.mk 0 "[]" 5

/-- A record whose resolved title is 31 characters long, used to exercise the
title-truncation branch (run.py lines 118-119). -/
def longTitleRec : RecordJson :=
  { subdomain := some "a.example.com", ip := some "10.0.0.1",
    status_code := some 200,
    title := some "AAAAAAAAAAAAAAAAAAAAAAAAAAAAAAA", server := some "nginx" }

/-- A sample record, subdomain `b.example.com`. -/
def demoRecB : RecordJson :=
  { subdomain := some "b.example.com", ip := some "10.0.0.2",
    status_code := some 301, title := none, server := none }

/-- A sample record, subdomain `a.example.com`. -/
def demoRecA : RecordJson :=
  { subdomain := some "a.example.com", ip := some "10.0.0.1",
    status_code := some 200, title := some "API", server := some "nginx" }

/-- C1: whenever the engine subprocess exits with a non-zero code,
`run_rust_core` returns the empty list; the engine's standard output is
ignored (the result does not depend on what the parse of stdout was), and
no distinction is made between failure reasons (any two non-zero exit codes
give the same result). -/
theorem C1_nonzero_exit_is_no_results (b : Bool) (rc rc' : Int)
    (p p' : Option Json) (h : rc ≠ 0) (h' : rc' ≠ 0) :
    run_rust_core b ⟨rc, p⟩ = Json.arr [] ∧
      run_rust_core b ⟨rc, p⟩ = run_rust_core b ⟨rc', p'⟩ := by
  unfold run_rust_core
  cases b <;> simp [h, h']

/-- Witness for C1 at exit codes 1 and 2, with a non-empty parsed array on
stdout that is ignored. -/
theorem C1_witness :
    (1 : Int) ≠ 0 ∧ (2 : Int) ≠ 0 ∧
      (run_rust_core true ⟨1, some (Json.arr [Json.num 7])⟩ = Json.arr [] ∧
        run_rust_core true ⟨1, some (Json.arr [Json.num 7])⟩ =
          run_rust_core true ⟨2, none⟩) :=
  ⟨by decide, by decide,
    C1_nonzero_exit_is_no_results true 1 2 (some (Json.arr [Json.num 7])) none
      (by decide) (by decide)⟩

/-- C2: when the engine exits with code 0 (and the binary existed, so the
subprocess actually ran), `run_rust_core` returns exactly the value obtained
by parsing the engine's standard output as JSON — authoritative even when
that value is the empty array. -/
theorem C2_zero_exit_returns_parsed_stdout (eng : EngineOutcome) (v : Json)
    (hrc : eng.returncode = 0) (hp : eng.stdoutParse = some v) :
    run_rust_core true eng = v := by
  unfold run_rust_core
  simp [hrc, hp]

/-- Witness for C2 at exit code 0 with stdout parsing to the empty array:
the empty array is returned as-is. -/
theorem C2_witness :
    run_rust_core true ⟨0, some (Json.arr [])⟩ = Json.arr [] :=
  C2_zero_exit_returns_parsed_stdout ⟨0, some (Json.arr [])⟩ (Json.arr [])
    rfl rfl

/-- C5: when `json.loads` on the engine's standard output raises (stdout is
not a single valid JSON value), the bare `except:` absorbs the failure and
`run_rust_core` returns the empty list — no exception propagates, whatever
the exit code and whether or not the binary existed. -/
theorem C5_parse_failure_absorbed (b : Bool) (rc : Int) :
    run_rust_core b ⟨rc, none⟩ = Json.arr [] := by
  unfold run_rust_core
  cases b <;> by_cases h : rc = 0 <;> simp [h]

/-- C9: when the core binary does not exist, `run_rust_core` returns the
empty list and its result does not depend on the engine outcome at all (no
subprocess semantics are involved), so a missing binary is indistinguishable
from a successful scan that found nothing. -/
theorem C9_missing_binary_is_empty_scan (eng eng' : EngineOutcome) :
    run_rust_core false eng = Json.arr [] ∧
      run_rust_core false eng = run_rust_core false eng' ∧
      run_rust_core false eng = run_rust_core true ⟨0, some (Json.arr [])⟩ := by
  unfold run_rust_core
  simp

/-- C3: whatever list the engine returned, whenever the shell's defensive
sort succeeds (every record carries the `"subdomain"` key, as the engine
contract guarantees), the displayed row order is ascending by subdomain and
is a permutation of the engine's list — so the display is sorted regardless
of the order the engine emitted. -/
theorem C3_display_sorted_by_subdomain (rs sortedRs : List RecordJson)
    (h : sortKeyed rs = some sortedRs) :
    sortedRs.Pairwise subLe ∧ sortedRs.Perm rs := by
  unfold sortKeyed at h
  by_cases hall : rs.all (fun r => r.subdomain.isSome)
  · rw [if_pos hall, Option.some_inj] at h
    subst h
    exact ⟨List.sorted_insertionSort subLe rs, List.perm_insertionSort subLe rs⟩
  · rw [if_neg hall] at h
    exact absurd h (by simp)

/-- Witness for C3: a two-record list arriving in descending order is
displayed in ascending order. -/
theorem C3_witness :
    sortKeyed [demoRecB, demoRecA] = some [demoRecA, demoRecB] ∧
      ([demoRecA, demoRecB].Pairwise subLe ∧
        ([demoRecA, demoRecB] : List RecordJson).Perm [demoRecB, demoRecA]) :=
  ⟨by decide, C3_display_sorted_by_subdomain [demoRecB, demoRecA]
    [demoRecA, demoRecB] (by decide)⟩

/-- C4 counterexample: the claim says a truthy field's value is rendered
as-is, but a record whose title is the truthy 31-character string of As is
displayed with the title cell truncated to 27 As plus `"..."`, which differs
from the field's value. -/
theorem C4_counterexample :
    longTitleRec.title = some "AAAAAAAAAAAAAAAAAAAAAAAAAAAAAAA" ∧
      renderRow longTitleRec =
        ["a.example.com", "10.0.0.1", "200",
          "AAAAAAAAAAAAAAAAAAAAAAAAAAA...", "nginx"] ∧
      ("AAAAAAAAAAAAAAAAAAAAAAAAAAA..." : String) ≠
        "AAAAAAAAAAAAAAAAAAAAAAAAAAAAAAA" := by
  decide

/-- C4 (amended): each of ip, status_code, title and server is rendered as
`"-"` when null, absent, or falsy, and as the field's value otherwise
(status_code in decimal) — except that a resolved title longer than 30
characters is displayed as its first 27 characters followed by `"..."`. -/
theorem C4_placeholder_contract :
    (∀ v : Option String, (v = none ∨ v = some "") → resolveOpt v = "-") ∧
    (∀ s : String, s ≠ "" → resolveOpt (some s) = s) ∧
    (∀ v : Option Int, (v = none ∨ v = some 0) → resolveStatus v = "-") ∧
    (∀ n : Int, n ≠ 0 → resolveStatus (some n) = toString n) ∧
    (∀ r : RecordJson, renderRow r =
      [r.subdomain.getD "", resolveOpt r.ip, resolveStatus r.status_code,
        truncateTitle (resolveOpt r.title), resolveOpt r.server]) ∧
    (∀ t : String, t.length ≤ 30 → truncateTitle t = t) ∧
    (∀ t : String, t.length > 30 → truncateTitle t = pySlice t 27 ++ "...") := by
  refine ⟨?_, ?_, ?_, ?_, ?_, ?_, ?_⟩
  · rintro v (rfl | rfl) <;> rfl
  · intro s hs
    simp [resolveOpt, hs]
  · rintro v (rfl | rfl) <;> rfl
  · intro n hn
    simp [resolveStatus, hn]
  · intro r
    rfl
  · intro t ht
    simp [truncateTitle, Nat.not_lt.mpr ht]
  · intro t ht
    simp [truncateTitle, ht]

/-- Witness for C4 (amended): the empty string and the zero status render as
`"-"`, truthy values render as themselves, a short title is unchanged, and a
31-character title is truncated. -/
theorem C4_witness :
    resolveOpt (some "") = "-" ∧
      resolveOpt (some "nginx") = "nginx" ∧
      resolveStatus (some 0) = "-" ∧
      resolveStatus (some 200) = toString (200 : Int) ∧
      truncateTitle "API" = "API" ∧
      truncateTitle "AAAAAAAAAAAAAAAAAAAAAAAAAAAAAAA" =
        pySlice "AAAAAAAAAAAAAAAAAAAAAAAAAAAAAAA" 27 ++ "..." :=
  ⟨C4_placeholder_contract.1 (some "") (Or.inr rfl),
    C4_placeholder_contract.2.1 "nginx" (by decide),
    C4_placeholder_contract.2.2.1 (some 0) (Or.inr rfl),
    C4_placeholder_contract.2.2.2.1 200 (by decide),
    C4_placeholder_contract.2.2.2.2.2.1 "API" (by decide),
    C4_placeholder_contract.2.2.2.2.2.2 "AAAAAAAAAAAAAAAAAAAAAAAAAAAAAAA"
      (by decide)⟩

/-- C6: whenever the shell invokes the engine, the invoked domain is the
user's input with surrounding whitespace stripped and nothing else changed,
and the argument vector is exactly the binary path followed by that single
positional argument — no scheme added, no other arguments. -/
theorem C6_single_positional_argument (rust_bin raw d : String)
    (h : shellDispatch raw = ShellAction.invoke d) :
    d = pyStrip raw ∧ engineArgv rust_bin d = [rust_bin, pyStrip raw] := by
  unfold shellDispatch at h
  by_cases h1 : pyLower (pyStrip raw) = "q" ∨ pyLower (pyStrip raw) = "exit"
  · rw [if_pos h1] at h
    exact absurd h (by simp)
  · rw [if_neg h1] at h
    by_cases h2 : pyStrip raw = ""
    · rw [if_pos h2] at h
      exact absurd h (by simp)
    · rw [if_neg h2] at h
      have hd : d = pyStrip raw := (ShellAction.invoke.injEq _ _).mp h.symm
      exact ⟨hd, by rw [engineArgv, hd]⟩

/-- Witness for C6: the input with surrounding spaces invokes the engine on
the stripped domain, as the sole argument after the binary path. -/
theorem C6_witness :
    shellDispatch "  example.com " = ShellAction.invoke "example.com" ∧
      ("example.com" = pyStrip "  example.com " ∧
        engineArgv "target/release/subpeek_core.exe" "example.com" =
          ["target/release/subpeek_core.exe", pyStrip "  example.com "]) :=
  ⟨by decide,
    C6_single_positional_argument "target/release/subpeek_core.exe"
      "  example.com " "example.com" (by decide)⟩

/-- C7: under the precondition that every record carries the `"subdomain"`
key, rendering the table never fails — the row renderer reads only the five
documented fields, the four besides subdomain through `dict.get` with an
absent default, so only subdomain is required. -/
theorem C7_rendering_never_fails (rs : List RecordJson)
    (h : ∀ r ∈ rs, r.subdomain.isSome) :
    (renderTable rs).isSome := by
  unfold renderTable sortKeyed
  rw [if_pos (List.all_eq_true.mpr h)]
  rfl

/-- Witness for C7 on a list of two records, one with all optional fields
absent. -/
theorem C7_witness : (renderTable [demoRecB, demoRecA]).isSome :=
  C7_rendering_never_fails [demoRecB, demoRecA] (by decide)

/-- C8 counterexample: the input `"q"` is non-empty after stripping, yet the
shell does not pass it to the engine — it exits the program — refuting "any
non-empty string is passed to the engine unvalidated". -/
theorem C8_counterexample :
    pyStrip "q" ≠ "" ∧ isInvoke (shellDispatch "q") = false := by
  decide

/-- C8 (amended): the engine rejects empty input or input with invalid
characters with a non-zero exit, empty output, and no network calls
(engine side modelled from the spec); on the shell side, an input that is
empty after stripping never invokes the engine (the prompt loop repeats),
and any non-empty stripped input other than the case-insensitive quit
commands `"q"` and `"exit"` is passed to the engine unvalidated. -/
theorem C8_invalid_input_fails_fast :
    (∀ (domain : String) (scan : String → EngineRun),
        (domain = "" ∨ ¬ domain.data.all validDomainChar) →
          (engineOnInput domain scan).exitCode ≠ 0 ∧
            (engineOnInput domain scan).stdout = "" ∧
            (engineOnInput domain scan).networkCalls = 0) ∧
    (∀ raw : String, pyStrip raw = "" →
        shellDispatch raw = ShellAction.reprompt) ∧
    (∀ raw : String, pyStrip raw ≠ "" →
        pyLower (pyStrip raw) ≠ "q" → pyLower (pyStrip raw) ≠ "exit" →
          shellDispatch raw = ShellAction.invoke (pyStrip raw)) := by
  refine ⟨?_, ?_, ?_⟩
  · intro domain scan hbad
    unfold engineOnInput
    rw [if_pos hbad]
    exact ⟨by decide, rfl, rfl⟩
  · intro raw h
    unfold shellDispatch
    rw [h]
    decide
  · intro raw h1 h2 h3
    unfold shellDispatch
    rw [if_neg (by simp [h2, h3]), if_neg h1]

/-- Witness for C8 (amended): an input with a space and an exclamation mark
is rejected by the engine with no network calls; blank shell input
re-prompts; a plain domain is invoked. -/
theorem C8_witness :
    (engineOnInput "bad domain!" demoScan).exitCode ≠ 0 ∧
      (engineOnInput "bad domain!" demoScan).networkCalls = 0 ∧
      shellDispatch "   " = ShellAction.reprompt ∧
      shellDispatch " example.com " = ShellAction.invoke
        (pyStrip " example.com ") :=
  ⟨(C8_invalid_input_fails_fast.1 "bad domain!" demoScan
      (Or.inr (by decide))).1,
    (C8_invalid_input_fails_fast.1 "bad domain!" demoScan
      (Or.inr (by decide))).2.2,
    C8_invalid_input_fails_fast.2.1 "   " (by decide),
    C8_invalid_input_fails_fast.2.2 " example.com " (by decide) (by decide)
      (by decide)⟩

/-- C10: a record whose placeholder-resolved title is longer than 30
characters is displayed with exactly its first 27 characters followed by
`"..."`; a resolved title of 30 or fewer characters is displayed unchanged;
and the list saved to file is the engine's result list untouched by the
truncation. -/
theorem C10_title_truncated_in_display_only :
    (∀ r : RecordJson, (resolveOpt r.title).length > 30 →
        renderRow r = [r.subdomain.getD "", resolveOpt r.ip,
          resolveStatus r.status_code,
          pySlice (resolveOpt r.title) 27 ++ "...", resolveOpt r.server]) ∧
    (∀ r : RecordJson, (resolveOpt r.title).length ≤ 30 →
        renderRow r = [r.subdomain.getD "", resolveOpt r.ip,
          resolveStatus r.status_code, resolveOpt r.title,
          resolveOpt r.server]) ∧
    (∀ rs : List RecordJson, savedResults rs = rs) := by
  refine ⟨?_, ?_, fun _ => rfl⟩
  · intro r h
    unfold renderRow truncateTitle
    rw [if_pos h]
  · intro r h
    unfold renderRow truncateTitle
    rw [if_neg (Nat.not_lt.mpr h)]

/-- Witness for C10 on the 31-character-title record and a short-title
record. -/
theorem C10_witness :
    (resolveOpt longTitleRec.title).length > 30 ∧
      renderRow longTitleRec = [longTitleRec.subdomain.getD "",
        resolveOpt longTitleRec.ip, resolveStatus longTitleRec.status_code,
        pySlice (resolveOpt longTitleRec.title) 27 ++ "...",
        resolveOpt longTitleRec.server] ∧
      savedResults [longTitleRec] = [longTitleRec] :=
  ⟨by decide,
    C10_title_truncated_in_display_only.1 longTitleRec (by decide),
    C10_title_truncated_in_display_only.2.2 [longTitleRec]⟩

end Subpeek
